import Mathlib

/-!
Verification of the compile-command pipeline of `mlc_chat.cli.compile`
(`src/python/mlc_chat/cli/compile.py`), shallowly embedded over
`List Char` strings.  External collaborators that the CLI imports
(`detect_config`, `detect_model_type`, `detect_target_and_host`, the
`QUANTIZATION` and `MODELS` registries, `OptimizationFlags.from_str`)
live outside the repository snapshot; they are modelled either as
oracles in an `Env` record or, where a claim needs their behaviour, as
definitions written from the specification and marked as such.
-/

namespace MlcCompile

/-- Equality of `Except` values is decidable when it is on both sides. -/
instance {ε α : Type} [DecidableEq ε] [DecidableEq α] : DecidableEq (Except ε α) := fun x y =>
  match x, y with
  | Except.ok a, Except.ok b =>
    if h : a = b then isTrue (by rw [h])
    else isFalse (by intro hc; cases hc; exact h rfl)
  | Except.ok _, Except.error _ => isFalse (by intro hc; cases hc)
  | Except.error _, Except.ok _ => isFalse (by intro hc; cases hc)
  | Except.error e, Except.error f =>
    if h : e = f then isTrue (by rw [h])
    else isFalse (by intro hc; cases hc; exact h rfl)

/-- ASCII character class `[a-zA-Z_]`, the first character of the
identifier pattern used by `_check_prefix_symbols`. -/
def isIdentStartChar (c : Char) : Bool :=
  (97 ≤ c.toNat && c.toNat ≤ 122) || (65 ≤ c.toNat && c.toNat ≤ 90) || c.toNat == 95

/-- ASCII character class `[a-zA-Z0-9_]`, the continuation characters of
the identifier pattern used by `_check_prefix_symbols`. -/
def isIdentChar (c : Char) : Bool :=
  isIdentStartChar c || (48 ≤ c.toNat && c.toNat ≤ 57)

/-- The error taxonomy of the pipeline (specification section 7).  The
CLI itself surfaces every failure through `argparse.ArgumentTypeError`
or an exception from a collaborator; the taxonomy names distinguish the
failure sites. -/
inductive CompileError where
  | ConfigNotFound (path : List Char)
  | ConfigInvalid (path : List Char)
  | UnknownQuantization
  | UnknownModelType
  | ModelTypeUndetectable
  | UnsupportedHost
  | NoTargetAvailable
  | UnknownOptimizationFlag
  | MalformedOptimizationString
  | InvalidSymbolPrefixError
  | OutputDirectoryMissing
deriving DecidableEq

/-- Tail of the Python regex `[a-zA-Z0-9_]*$` under `re.match` semantics:
the star consumes identifier characters and the dollar anchor succeeds at
the end of the string or just before a single trailing newline (Python
`$` outside MULTILINE mode). -/
def dollarAfterStar : List Char → Bool
  | [] => true
  | [c] => c == '\n' || isIdentChar c
  | c :: rest => isIdentChar c && dollarAfterStar rest

/-- Embedding of Python `re.match(r"^[a-zA-Z_][a-zA-Z0-9_]*$", s)` viewed
as a Boolean: matches at the start of `s`, and the `$` anchor also
matches just before a trailing newline. -/
def reMatchIdentDollar : List Char → Bool
  | [] => false
  | c :: rest => isIdentStartChar c && dollarAfterStar rest

/-- `_check_prefix_symbols` from `compile.py`: accept the empty string or
a string matched by `re.match(r"^[a-zA-Z_][a-zA-Z0-9_]*$", ·)`, otherwise
raise (here: return the error).  Note the CLI defines this validator but
declares `--prefix-symbols` with `type=str`, so `main` never calls it:
it is dead code, studied here on its own. -/
def _check_prefix_symbols (s : List Char) : Except CompileError (List Char) :=
  if s.isEmpty || reMatchIdentDollar s then Except.ok s
  else Except.error CompileError.InvalidSymbolPrefixError

/-- The identifier pattern exactly as the specification words it: one
character of `[A-Za-z_]` followed by characters of `[A-Za-z0-9_]`, the
whole string and nothing else.  Spec-side definition, used to compare
the code's acceptance set against the specified one. -/
def specIdentPattern : List Char → Bool
  | [] => false
  | c :: rest => isIdentStartChar c && rest.all isIdentChar

/-- Parent of a (POSIX) path as `pathlib.Path(path).parent` computes it
for normalised paths: drop the last component; a bare filename has
parent `"."`; a top-level entry has parent `"/"`. -/
def pathParent (p : List Char) : List Char :=
  let r1 := p.reverse.dropWhile (fun c => c != '/')
  if r1.isEmpty then ['.']
  else
    let r2 := r1.dropWhile (fun c => c == '/')
    if r2.isEmpty then ['/'] else r2.reverse

/-- `_parse_output` from `compile.py`: the parent directory of the output
path must exist (be a directory), otherwise raise; on success the path is
returned unchanged.  The file system is abstracted by the `isDir`
oracle. -/
def _parse_output (isDir : List Char → Bool) (path : List Char) :
    Except CompileError (List Char) :=
  if isDir (pathParent path) then Except.ok path
  else Except.error CompileError.OutputDirectoryMissing

/-- The optimization toggles named by the `--opt` help text of
`compile.py` and the specification. -/
inductive Toggle where
  | cutlass_attn
  | cutlass_norm
  | cublas_gemm
  | cudagraph
deriving DecidableEq

/-- Modelled from the spec: the `OptimizationFlags` record
(`mlc_chat.compiler`, not in the repository snapshot) — a structured
record with one Boolean per known toggle. -/
structure OptimizationFlags where
  cutlass_attn : Bool
  cutlass_norm : Bool
  cublas_gemm : Bool
  cudagraph : Bool
deriving DecidableEq

/-- Read one toggle out of an `OptimizationFlags` record. -/
def OptimizationFlags.get (c : OptimizationFlags) : Toggle → Bool
  | Toggle.cutlass_attn => c.cutlass_attn
  | Toggle.cutlass_norm => c.cutlass_norm
  | Toggle.cublas_gemm => c.cublas_gemm
  | Toggle.cudagraph => c.cudagraph

/-- Overwrite one toggle of an `OptimizationFlags` record. -/
def OptimizationFlags.set (c : OptimizationFlags) : Toggle → Bool → OptimizationFlags
  | Toggle.cutlass_attn, v => { c with cutlass_attn := v }
  | Toggle.cutlass_norm, v => { c with cutlass_norm := v }
  | Toggle.cublas_gemm, v => { c with cublas_gemm := v }
  | Toggle.cudagraph, v => { c with cudagraph := v }

/-- Modelled from the spec: the `O0` preset — all toggles off. -/
def presetO0 : OptimizationFlags := ⟨false, false, false, false⟩

/-- Modelled from the spec: the `O1` preset — a mild point of the ordinal
scale between all-off and the `O2` majority preset. -/
def presetO1 : OptimizationFlags := ⟨true, false, false, false⟩

/-- Modelled from the spec: the `O2` preset — the default, turning on the
majority of the toggles. -/
def presetO2 : OptimizationFlags := ⟨true, true, true, false⟩

/-- Modelled from the spec: the `O3` preset — all toggles on. -/
def presetO3 : OptimizationFlags := ⟨true, true, true, true⟩

/-- Recognise a toggle name. -/
def parseToggleName (s : List Char) : Option Toggle :=
  if s = "cutlass_attn".data then some Toggle.cutlass_attn
  else if s = "cutlass_norm".data then some Toggle.cutlass_norm
  else if s = "cublas_gemm".data then some Toggle.cublas_gemm
  else if s = "cudagraph".data then some Toggle.cudagraph
  else none

/-- Split a character list at every `;`, as Python `str.split(";")`
does (the empty string splits to one empty piece). -/
def splitSemi : List Char → List (List Char)
  | [] => [[]]
  | c :: rest =>
    let r := splitSemi rest
    if c = ';' then [] :: r
    else
      match r with
      | [] => [[c]]
      | x :: xs => (c :: x) :: xs

/-- Split a character list at the first `=`, if any. -/
def splitEq : List Char → Option (List Char × List Char)
  | [] => none
  | c :: rest =>
    if c = '=' then some ([], rest)
    else
      match splitEq rest with
      | some (a, b) => some (c :: a, b)
      | none => none

/-- Modelled from the spec: the right-hand side of an assignment must be
`0` or `1`; anything else is malformed. -/
def parseToggleValue (s : List Char) : Except CompileError Bool :=
  if s = "0".data then Except.ok false
  else if s = "1".data then Except.ok true
  else Except.error CompileError.MalformedOptimizationString

/-- Modelled from the spec: one `name=0|1` assignment — an unknown name
fails with `UnknownOptimizationFlag`, malformed syntax with
`MalformedOptimizationString`. -/
def parseAssign (s : List Char) : Except CompileError (Toggle × Bool) :=
  match splitEq s with
  | none => Except.error CompileError.MalformedOptimizationString
  | some (n, v) =>
    match parseToggleName n with
    | none => Except.error CompileError.UnknownOptimizationFlag
    | some t =>
      match parseToggleValue v with
      | Except.ok b => Except.ok (t, b)
      | Except.error e => Except.error e

/-- Parse a `;`-separated list of assignments left to right, stopping at
the first failure. -/
def parseAssigns : List (List Char) → Except CompileError (List (Toggle × Bool))
  | [] => Except.ok []
  | s :: rest =>
    match parseAssign s with
    | Except.error e => Except.error e
    | Except.ok p =>
      match parseAssigns rest with
      | Except.error e => Except.error e
      | Except.ok l => Except.ok (p :: l)

/-- Modelled from the spec: `OptimizationFlags.from_str`
(`mlc_chat.compiler`, not in the repository snapshot).  A bare level
token `O0`–`O3` expands to its preset; otherwise the input is a
`;`-separated list of `name=0|1` assignments applied on top of the `O2`
preset. -/
def OptimizationFlags.from_str (s : List Char) : Except CompileError OptimizationFlags :=
  if s = "O0".data then Except.ok presetO0
  else if s = "O1".data then Except.ok presetO1
  else if s = "O2".data then Except.ok presetO2
  else if s = "O3".data then Except.ok presetO3
  else
    match parseAssigns (splitSemi s) with
    | Except.error e => Except.error e
    | Except.ok l =>
      Except.ok (l.foldl (fun c p => OptimizationFlags.set c p.1 p.2) presetO2)

/-- The last value assigned to a toggle in an assignment list, if any. -/
def lastVal : List (Toggle × Bool) → Toggle → Option Bool
  | [], _ => none
  | (n, v) :: xs, t =>
    match lastVal xs t with
    | some w => some w
    | none => if n = t then some v else none

/-- A minimal read-only file-system view for the config locator. -/
structure FS where
  isFile : List Char → Bool
  isDirF : List Char → Bool
  listDir : List Char → List (List Char)

/-- A directory entry recognised as a model configuration file. -/
def isConfigName (n : List Char) : Bool := n = "config.json".data

/-- Modelled from the spec: `detect_config`
(`mlc_chat.support.auto_config`, not in the repository snapshot) — if the
path is a config file itself it is returned; if it is a directory, a
non-recursive search must find exactly one recognised config file, and
zero or multiple matches both fail with `ConfigNotFound` naming the
path. -/
def locateConfig (fs : FS) (path : List Char) : Except CompileError (List Char) :=
  if fs.isFile path then Except.ok path
  else if fs.isDirF path then
    match (fs.listDir path).filter isConfigName with
    | [c] => Except.ok c
    | _ => Except.error (CompileError.ConfigNotFound path)
  else Except.error (CompileError.ConfigNotFound path)

/-- The oracles `main` consumes: the external collaborators imported by
`compile.py`, and the registries, abstracted.  Quantization schemes,
targets and build functions are opaque handles (`Nat`). -/
structure Env where
  detectConfig : List Char → Except CompileError (List Char)
  quant : List (List Char × Nat)
  models : List (List Char)
  detectTargetHost : List Char → List Char → Except CompileError (Nat × Nat)
  inferModelType : List Char → Except CompileError (List Char)
  isDir : List Char → Bool

/-- The command-line arguments of `main`, after raw token parsing. -/
structure Args where
  config : List Char
  quantization : List Char
  model_type : List Char
  device : List Char
  host : List Char
  opt : List Char
  prefix_symbols : List Char
  max_sequence_length : Option Int
  output : List Char

/-- The argument record handed to `mlc_chat.compiler.compile` by `main`
(the assembled compile-job descriptor). -/
structure Job where
  config : List Char
  quantization : Nat
  model_type : List Char
  target : Nat
  opt : OptimizationFlags
  build_func : Nat
  prefix_symbols : List Char
  output : List Char
  max_sequence_length : Option Int
deriving DecidableEq

/-- The observable stages of one `main` invocation, in the order the
code runs them: the argparse validators in declaration order, then
`detect_target_and_host`, then `detect_model_type`, then the final
`compile` call.  There is no symbol-prefix stage: `--prefix-symbols` is
declared with `type=str`, so its string is never validated. -/
inductive Stage where
  | locator
  | quantCheck
  | modelTypeCheck
  | hostCheck
  | optParse
  | outputCheck
  | targetHostInference
  | modelTypeInference
  | assemble
deriving DecidableEq

/-- First-match association-list lookup, the behaviour of a Python dict
keyed by strings. -/
def lookupAssoc : List (List Char × Nat) → List Char → Option Nat
  | [], _ => none
  | (k, v) :: rest, q => if k = q then some v else lookupAssoc rest q

/-- The `choices` list of the `--host` argument in `compile.py`. -/
def hostChoices : List (List Char) :=
  ["auto".data, "arm".data, "arm64".data, "aarch64".data, "x86-64".data]

/-- Modelled from the spec: `detect_model_type`
(`mlc_chat.support.auto_config`, not in the repository snapshot) — an
explicit non-"auto" hint is returned unchanged; an "auto" hint is
resolved by inspecting the config artifact. -/
def detect_model_type (env : Env) (hint cfg : List Char) : Except CompileError (List Char) :=
  if hint = "auto".data then env.inferModelType cfg else Except.ok hint

/-- `main` from `compile.py`, instrumented with the list of stages that
ran.  Argparse applies the per-argument validators (`--config` type,
`--quantization` choices, `--model-type` choices, `--host` choices,
`--opt` type, `--output` type) while parsing — `--prefix-symbols` has
`type=str`, so its string is taken as-is and `_check_prefix_symbols` is
never invoked — then `main` calls `detect_target_and_host`, then
`detect_model_type`, then hands the assembled record to `compile`. -/
def runMain (env : Env) (args : Args) : List Stage × Except CompileError Job :=
  match env.detectConfig args.config with
  | Except.error e => ([Stage.locator], Except.error e)
  | Except.ok cfg =>
    match lookupAssoc env.quant args.quantization with
    | none =>
      ([Stage.locator, Stage.quantCheck], Except.error CompileError.UnknownQuantization)
    | some scheme =>
      if args.model_type = "auto".data ∨ args.model_type ∈ env.models then
        if args.host ∈ hostChoices then
          match OptimizationFlags.from_str args.opt with
          | Except.error e =>
            ([Stage.locator, Stage.quantCheck, Stage.modelTypeCheck, Stage.hostCheck,
              Stage.optParse], Except.error e)
          | Except.ok optFlags =>
            match _parse_output env.isDir args.output with
            | Except.error e =>
              ([Stage.locator, Stage.quantCheck, Stage.modelTypeCheck, Stage.hostCheck,
                Stage.optParse, Stage.outputCheck], Except.error e)
            | Except.ok out =>
              match env.detectTargetHost args.device args.host with
              | Except.error e =>
                ([Stage.locator, Stage.quantCheck, Stage.modelTypeCheck, Stage.hostCheck,
                  Stage.optParse, Stage.outputCheck,
                  Stage.targetHostInference], Except.error e)
              | Except.ok (tgt, bf) =>
                match detect_model_type env args.model_type cfg with
                | Except.error e =>
                  ([Stage.locator, Stage.quantCheck, Stage.modelTypeCheck, Stage.hostCheck,
                    Stage.optParse, Stage.outputCheck,
                    Stage.targetHostInference, Stage.modelTypeInference], Except.error e)
                | Except.ok mt =>
                  ([Stage.locator, Stage.quantCheck, Stage.modelTypeCheck, Stage.hostCheck,
                    Stage.optParse, Stage.outputCheck,
                    Stage.targetHostInference, Stage.modelTypeInference, Stage.assemble],
                   Except.ok
                     { config := cfg
                       quantization := scheme
                       model_type := mt
                       target := tgt
                       opt := optFlags
                       build_func := bf
                       prefix_symbols := args.prefix_symbols
                       output := out
                       max_sequence_length := args.max_sequence_length })
        else
          ([Stage.locator, Stage.quantCheck, Stage.modelTypeCheck, Stage.hostCheck],
           Except.error CompileError.UnsupportedHost)
      else
        ([Stage.locator, Stage.quantCheck, Stage.modelTypeCheck],
         Except.error CompileError.UnknownModelType)

/-- The stage trace of a fully successful invocation. -/
def fullTrace : List Stage :=
  [Stage.locator, Stage.quantCheck, Stage.modelTypeCheck, Stage.hostCheck,
   Stage.optParse, Stage.outputCheck,
   Stage.targetHostInference, Stage.modelTypeInference, Stage.assemble]

/-- A concrete environment on which every stage succeeds: the locator
echoes the path, the quantization registry holds one scheme, the model
registry holds `llama`, target and host inference return fixed handles,
and every directory exists. -/
def envW : Env where
  detectConfig := fun p => Except.ok p
  quant := [("q4f16_1".data, 7)]
  models := ["llama".data]
  detectTargetHost := fun _ _ => Except.ok (3, 5)
  inferModelType := fun _ => Except.ok "llama".data
  isDir := fun _ => true

/-- A concrete argument record on which every stage succeeds. -/
def argsW : Args where
  config := "model-dir".data
  quantization := "q4f16_1".data
  model_type := "llama".data
  device := "auto".data
  host := "auto".data
  opt := "O2".data
  prefix_symbols := "".data
  max_sequence_length := some (-5)
  output := "out.so".data

/-- `argsW` with an unsupported host hint. -/
def argsMips : Args := { argsW with host := "mips".data }

/-- `argsW` with a quantization name outside the registry of `envW`. -/
def argsBadQuant : Args := { argsW with quantization := "q9f99".data }

/-- `argsW` with a non-"auto" model type outside the registry of `envW`. -/
def argsBadModel : Args := { argsW with model_type := "gpt2".data }

/-- `argsW` with the symbol-prefix string `1bad`, which the dead
validator `_check_prefix_symbols` would reject. -/
def argsRawSym : Args := { argsW with prefix_symbols := "1bad".data }

/-- A concrete file-system view whose `model-dir` directory holds two
recognised config files. -/
def fsW : FS where
  isFile := fun _ => false
  isDirF := fun _ => true
  listDir := fun _ => ["config.json".data, "config.json".data]

/-- The descriptor `runMain envW argsW` assembles. -/
def jobW : Job where
  config := "model-dir".data
  quantization := 7
  model_type := "llama".data
  target := 3
  opt := presetO2
  build_func := 5
  prefix_symbols := "".data
  output := "out.so".data
  max_sequence_length := some (-5)

/-- The descriptor `runMain envW argsRawSym` assembles: the invalid
symbol-prefix string reaches it unchanged. -/
def jobRawSym : Job := { jobW with prefix_symbols := "1bad".data }

theorem dollarAfterStar_iff (l : List Char) :
    dollarAfterStar l = true ↔
      (l.all isIdentChar = true ∨
        (l.getLast? = some '\n' ∧ l.dropLast.all isIdentChar = true)) := by
  induction l with
  | nil => simp [dollarAfterStar]
  | cons c rest ih =>
    cases rest with
    | nil =>
      constructor
      · intro h
        simp only [dollarAfterStar, Bool.or_eq_true, beq_iff_eq] at h
        rcases h with h | h
        · right; simp [h]
        · left; simp [h]
      · intro h
        rcases h with h | h
        · simp only [List.all_cons, List.all_nil, Bool.and_eq_true] at h
          simp [dollarAfterStar, h.1]
        · simp only [List.getLast?_singleton, Option.some.injEq] at h
          simp [dollarAfterStar, h.1]
    | cons d rest2 =>
      have hds : dollarAfterStar (c :: d :: rest2) =
          (isIdentChar c && dollarAfterStar (d :: rest2)) := rfl
      have hdl : (c :: d :: rest2).dropLast = c :: (d :: rest2).dropLast := rfl
      have hgl : (c :: d :: rest2).getLast? = (d :: rest2).getLast? := by
        simp [List.getLast?_cons_cons]
      rw [hds, hdl, hgl]
      cases hc : isIdentChar c with
      | false => simp [hc, ih]
      | true => simp [hc, ih]

theorem reMatchIdentDollar_iff (p : List Char) :
    reMatchIdentDollar p = true ↔
      (specIdentPattern p = true ∨
        (p.getLast? = some '\n' ∧ specIdentPattern p.dropLast = true)) := by
  cases p with
  | nil => simp [reMatchIdentDollar, specIdentPattern]
  | cons c rest =>
    cases rest with
    | nil =>
      simp only [reMatchIdentDollar, specIdentPattern, dollarAfterStar,
        List.getLast?_singleton, List.dropLast_single, Option.some.injEq]
      cases hc : isIdentStartChar c <;> simp [hc]
    | cons d rest2 =>
      have h1 : reMatchIdentDollar (c :: d :: rest2) =
          (isIdentStartChar c && dollarAfterStar (d :: rest2)) := rfl
      have h2 : specIdentPattern (c :: d :: rest2) =
          (isIdentStartChar c && (d :: rest2).all isIdentChar) := rfl
      have hdl : (c :: d :: rest2).dropLast = c :: (d :: rest2).dropLast := rfl
      have h3 : specIdentPattern ((c :: d :: rest2).dropLast) =
          (isIdentStartChar c && ((d :: rest2).dropLast).all isIdentChar) := by
        rw [hdl]; rfl
      have hgl : (c :: d :: rest2).getLast? = (d :: rest2).getLast? := by
        simp [List.getLast?_cons_cons]
      rw [h1, h2, h3, hgl]
      cases hc : isIdentStartChar c with
      | false => simp [hc]
      | true => simp [hc, dollarAfterStar_iff]

/-- C1 (amended): `_check_prefix_symbols` accepts exactly the empty
string, the strings matching the identifier pattern, and the strings
that are an identifier followed by one trailing newline (a consequence
of Python `$` semantics under `re.match`); every other input fails with
the invalid-symbol-prefix error, and in particular `"1bad"` is
rejected. -/
theorem check_prefix_symbols_spec :
    (∀ p : List Char,
      _check_prefix_symbols p =
        (if p = [] ∨ specIdentPattern p = true ∨
            (p.getLast? = some '\n' ∧ specIdentPattern p.dropLast = true)
         then Except.ok p
         else Except.error CompileError.InvalidSymbolPrefixError)) ∧
    _check_prefix_symbols "1bad".data = Except.error CompileError.InvalidSymbolPrefixError := by
  constructor
  · intro p
    unfold _check_prefix_symbols
    by_cases h : p = [] ∨ specIdentPattern p = true ∨
        (p.getLast? = some '\n' ∧ specIdentPattern p.dropLast = true)
    · rw [if_pos h]
      have hb : (p.isEmpty || reMatchIdentDollar p) = true := by
        rcases h with h | h
        · subst h; rfl
        · have := (reMatchIdentDollar_iff p).mpr h
          simp [this]
      rw [if_pos hb]
    · rw [if_neg h]
      have hb : (p.isEmpty || reMatchIdentDollar p) = false := by
        push_neg at h
        have h1 : p.isEmpty = false := by
          cases p with
          | nil => exact absurd rfl h.1
          | cons c r => rfl
        have h2 : reMatchIdentDollar p = false := by
          cases hr : reMatchIdentDollar p with
          | false => rfl
          | true =>
            rcases (reMatchIdentDollar_iff p).mp hr with hs | hs
            · exact absurd hs h.2.1
            · exact absurd hs.2 (h.2.2 hs.1)
        simp [h1, h2]
      rw [if_neg (by simp [hb])]
  · decide

/-- C1 (counterexample): the string `"abc\n"` is neither empty nor a
match of the identifier pattern as the specification words it, yet
`_check_prefix_symbols` accepts it and returns it unchanged. -/
theorem check_prefix_symbols_newline_cex :
    _check_prefix_symbols "abc\n".data = Except.ok "abc\n".data ∧
    "abc\n".data ≠ [] ∧ specIdentPattern "abc\n".data = false := by decide

/-- C10: a string containing a character outside `[A-Za-z0-9_]` — a
valid identifier followed by one trailing newline — passes the
symbol-prefix validation unchanged, because Python `$` under `re.match`
also matches just before a final newline. -/
theorem check_prefix_symbols_accepts_trailing_newline :
    _check_prefix_symbols "abc\n".data = Except.ok "abc\n".data ∧
    '\n' ∈ "abc\n".data ∧ isIdentChar '\n' = false := by decide

/-- C2: `_parse_output` fails with `OutputDirectoryMissing` exactly when
the parent directory of the output path is not a directory at validation
time, and returns the path unchanged when the parent exists. -/
theorem parse_output_parent_must_exist (isDir : List Char → Bool) (p : List Char) :
    (_parse_output isDir p = Except.error CompileError.OutputDirectoryMissing ↔
      isDir (pathParent p) = false) ∧
    (isDir (pathParent p) = true → _parse_output isDir p = Except.ok p) := by
  unfold _parse_output
  cases h : isDir (pathParent p) <;> simp [h]

/-- Witness for C2: with every directory present, the output path
`out.so` is returned unchanged. -/
theorem parse_output_parent_must_exist_case :
    _parse_output (fun _ => true) "out.so".data = Except.ok "out.so".data :=
  (parse_output_parent_must_exist (fun _ => true) "out.so".data).2 rfl

theorem OptimizationFlags.set_get (c : OptimizationFlags) (t : Toggle) (v : Bool)
    (u : Toggle) :
    (OptimizationFlags.set c t v).get u = if t = u then v else c.get u := by
  cases t <;> cases u <;> simp [OptimizationFlags.set, OptimizationFlags.get]

theorem foldl_set_get (l : List (Toggle × Bool)) (init : OptimizationFlags) (t : Toggle) :
    (l.foldl (fun c p => OptimizationFlags.set c p.1 p.2) init).get t =
      (lastVal l t).getD (init.get t) := by
  induction l generalizing init with
  | nil => rfl
  | cons x xs ih =>
    rcases x with ⟨n, v⟩
    rw [List.foldl_cons, ih]
    show _ = (lastVal ((n, v) :: xs) t).getD _
    simp only [lastVal]
    cases hl : lastVal xs t with
    | some w => simp [hl]
    | none =>
      simp only [hl, OptimizationFlags.set_get]
      by_cases hn : n = t <;> simp [hn]

/-- C3: when the optimization flag string is not one of the level tokens
and parses as a `;`-separated list of known `name=0|1` assignments,
`from_str` starts from the `O2` preset and overrides exactly the
assigned toggles: every unassigned toggle keeps its `O2` value and every
assigned toggle takes its (last) assigned value. -/
theorem from_str_starts_from_O2 (s : List Char) (l : List (Toggle × Bool))
    (c : OptimizationFlags)
    (h0 : s ≠ "O0".data) (h1 : s ≠ "O1".data) (h2 : s ≠ "O2".data) (h3 : s ≠ "O3".data)
    (hp : parseAssigns (splitSemi s) = Except.ok l)
    (hr : OptimizationFlags.from_str s = Except.ok c) :
    ∀ t : Toggle, c.get t = (lastVal l t).getD (presetO2.get t) := by
  intro t
  unfold OptimizationFlags.from_str at hr
  rw [if_neg h0, if_neg h1, if_neg h2, if_neg h3] at hr
  simp only [hp] at hr
  cases hr
  exact foldl_set_get l presetO2 t

/-- Witness for C3: the string `cudagraph=1` yields the `O2` preset with
only `cudagraph` overridden; in particular `cutlass_attn` keeps its `O2`
value and `cudagraph` takes the assigned one. -/
theorem from_str_starts_from_O2_case :
    (⟨true, true, true, true⟩ : OptimizationFlags).get Toggle.cutlass_attn =
      (lastVal [(Toggle.cudagraph, true)] Toggle.cutlass_attn).getD
        (presetO2.get Toggle.cutlass_attn) :=
  from_str_starts_from_O2 "cudagraph=1".data [(Toggle.cudagraph, true)]
    ⟨true, true, true, true⟩ (by decide) (by decide) (by decide) (by decide)
    (by decide) (by decide) Toggle.cutlass_attn

theorem runMain_ok_inv (env : Env) (args : Args) (job : Job)
    (h : (runMain env args).2 = Except.ok job) :
    ∃ cfg scheme tgt bf mt optFlags out,
      env.detectConfig args.config = Except.ok cfg ∧
      lookupAssoc env.quant args.quantization = some scheme ∧
      (args.model_type = "auto".data ∨ args.model_type ∈ env.models) ∧
      args.host ∈ hostChoices ∧
      OptimizationFlags.from_str args.opt = Except.ok optFlags ∧
      _parse_output env.isDir args.output = Except.ok out ∧
      env.detectTargetHost args.device args.host = Except.ok (tgt, bf) ∧
      detect_model_type env args.model_type cfg = Except.ok mt ∧
      job = { config := cfg, quantization := scheme, model_type := mt, target := tgt,
              opt := optFlags, build_func := bf, prefix_symbols := args.prefix_symbols,
              output := out, max_sequence_length := args.max_sequence_length } := by
  unfold runMain at h
  cases hc : env.detectConfig args.config with
  | error e => simp [hc] at h
  | ok cfg =>
  simp only [hc] at h
  cases hq : lookupAssoc env.quant args.quantization with
  | none => simp [hq] at h
  | some scheme =>
  simp only [hq] at h
  by_cases hm : args.model_type = "auto".data ∨ args.model_type ∈ env.models
  · rw [if_pos hm] at h
    by_cases hh : args.host ∈ hostChoices
    · rw [if_pos hh] at h
      cases ho : OptimizationFlags.from_str args.opt with
      | error e => simp [ho] at h
      | ok optFlags =>
      simp only [ho] at h
      cases hout : _parse_output env.isDir args.output with
      | error e => simp [hout] at h
      | ok out =>
      simp only [hout] at h
      cases ht : env.detectTargetHost args.device args.host with
      | error e => simp [ht] at h
      | ok tb =>
      obtain ⟨tgt, bf⟩ := tb
      simp only [ht] at h
      cases hmt : detect_model_type env args.model_type cfg with
      | error e => simp [hmt] at h
      | ok mt =>
      simp only [hmt] at h
      refine ⟨cfg, scheme, tgt, bf, mt, optFlags, out,
        rfl, rfl, hm, hh, rfl, rfl, rfl, hmt, ?_⟩
      simp only [Except.ok.injEq] at h
      exact h.symm
    · rw [if_neg hh] at h
      simp at h
  · rw [if_neg hm] at h
    simp at h

/-- C4 (amended): the stages of one invocation always run in the fixed
program order — the argparse validators (config location, quantization
membership, model-type membership, host membership, optimization-flag
parsing, output-directory check) during argument parsing, then
target/host inference, then model-type inference, then assembly — any
failure aborts the remaining stages and a successful invocation runs
them all; no symbol-prefix validation runs at any stage (the validator
is dead code), the prefix string reaching the descriptor unchanged. -/
theorem main_stage_order :
    (∀ env args, ((runMain env args).1).isPrefixOf fullTrace = true) ∧
    (∀ env args job, (runMain env args).2 = Except.ok job →
      (runMain env args).1 = fullTrace ∧ job.prefix_symbols = args.prefix_symbols) := by
  constructor
  · intro env args
    unfold runMain
    repeat' split
    all_goals rfl
  · intro env args job h
    obtain ⟨cfg, scheme, tgt, bf, mt, optFlags, out,
      hc, hq, hm, hh, ho, hout, ht, hmt, hjob⟩ := runMain_ok_inv env args job h
    constructor
    · unfold runMain
      simp only [hc, hq, if_pos hm, if_pos hh, ho, hout, ht, hmt]
      rfl
    · subst hjob
      rfl

/-- Witness for C4 (amended): the concrete successful invocation runs
the full stage list. -/
theorem main_stage_order_case : (runMain envW argsW).1 = fullTrace :=
  (main_stage_order.2 envW argsW jobW (by decide)).1

/-- C4 (counterexample): a concrete invocation whose symbol-prefix
string `1bad` would fail the (never-invoked) validator nevertheless
succeeds, delivering `1bad` to the descriptor — so the symbol-prefix
validation is not performed at the assembler (nor anywhere) — and its
trace runs target/host inference strictly before model-type
inference, not after as the claim states. -/
theorem main_stage_order_cex :
    (runMain envW argsRawSym).2 = Except.ok jobRawSym ∧
    jobRawSym.prefix_symbols = "1bad".data ∧
    _check_prefix_symbols "1bad".data =
      Except.error CompileError.InvalidSymbolPrefixError ∧
    (runMain envW argsRawSym).1 = fullTrace ∧
    Stage.targetHostInference ∈
      fullTrace.takeWhile (fun s => !(decide (s = Stage.modelTypeInference))) := by decide

/-- C5: a non-"auto" host hint is accepted exactly when it is one of
arm, arm64, aarch64, x86-64; with host `mips` and every earlier
argument valid, the run fails with `UnsupportedHost` and target/host
inference never runs. -/
theorem host_enumerated_set :
    (∀ h : List Char, h ≠ "auto".data →
      (h ∈ hostChoices ↔
        h ∈ ["arm".data, "arm64".data, "aarch64".data, "x86-64".data])) ∧
    (∀ env args cfg s, env.detectConfig args.config = Except.ok cfg →
      lookupAssoc env.quant args.quantization = some s →
      (args.model_type = "auto".data ∨ args.model_type ∈ env.models) →
      args.host = "mips".data →
      (runMain env args).2 = Except.error CompileError.UnsupportedHost ∧
      Stage.targetHostInference ∉ (runMain env args).1) := by
  constructor
  · intro h hne
    simp [hostChoices, hne]
  · intro env args cfg s hc hq hm hh
    unfold runMain
    simp only [hc, hq, if_pos hm]
    rw [hh, if_neg (by decide)]
    exact ⟨rfl, by decide⟩

/-- Witness for C5: arm64 is in the accepted set, and the concrete run
with host `mips` fails with `UnsupportedHost`. -/
theorem host_enumerated_set_case :
    "arm64".data ∈ hostChoices ∧
    (runMain envW argsMips).2 = Except.error CompileError.UnsupportedHost :=
  ⟨(host_enumerated_set.1 "arm64".data (by decide)).mpr (by decide),
   (host_enumerated_set.2 envW argsMips "model-dir".data 7 (by decide) (by decide)
      (by decide) (by decide)).1⟩

/-- C6: a successful run implies the quantization name is in the
registry and the job descriptor receives exactly the registry's scheme
for it; a name outside the registry fails with `UnknownQuantization`
before any later stage runs. -/
theorem quantization_registry_gate :
    (∀ env args job, (runMain env args).2 = Except.ok job →
      lookupAssoc env.quant args.quantization = some job.quantization) ∧
    (∀ env args cfg, env.detectConfig args.config = Except.ok cfg →
      lookupAssoc env.quant args.quantization = none →
      (runMain env args).2 = Except.error CompileError.UnknownQuantization ∧
      Stage.hostCheck ∉ (runMain env args).1) := by
  constructor
  · intro env args job h
    obtain ⟨cfg, scheme, tgt, bf, mt, optFlags, out,
      hc, hq, hm, hh, ho, hout, ht, hmt, hjob⟩ := runMain_ok_inv env args job h
    subst hjob
    simpa using hq
  · intro env args cfg hc hq
    unfold runMain
    refine ⟨?_, ?_⟩ <;> simp [hc, hq]

/-- Witness for C6: the concrete successful run receives the registry's
scheme for `q4f16_1`, and a name outside the registry fails with
`UnknownQuantization`. -/
theorem quantization_registry_gate_case :
    lookupAssoc envW.quant argsW.quantization = some jobW.quantization ∧
    (runMain envW argsBadQuant).2 = Except.error CompileError.UnknownQuantization :=
  ⟨quantization_registry_gate.1 envW argsW jobW (by decide),
   (quantization_registry_gate.2 envW argsBadQuant "model-dir".data (by decide)
      (by decide)).1⟩

/-- C7: a non-"auto" model-type hint inside the registry bypasses
inference and reaches the job descriptor unchanged; a non-"auto" hint
outside the registry fails with `UnknownModelType`. -/
theorem model_type_hint_resolution :
    (∀ env args job, args.model_type ≠ "auto".data →
      (runMain env args).2 = Except.ok job → job.model_type = args.model_type) ∧
    (∀ env args cfg s, env.detectConfig args.config = Except.ok cfg →
      lookupAssoc env.quant args.quantization = some s →
      args.model_type ≠ "auto".data → args.model_type ∉ env.models →
      (runMain env args).2 = Except.error CompileError.UnknownModelType) := by
  constructor
  · intro env args job hne h
    obtain ⟨cfg, scheme, tgt, bf, mt, optFlags, out,
      hc, hq, hm, hh, ho, hout, ht, hmt, hjob⟩ := runMain_ok_inv env args job h
    unfold detect_model_type at hmt
    rw [if_neg hne] at hmt
    simp only [Except.ok.injEq] at hmt
    subst hjob
    simp [hmt]
  · intro env args cfg s hc hq hne hnm
    unfold runMain
    simp only [hc, hq]
    rw [if_neg (by rintro (h | h); exacts [hne h, hnm h])]

/-- Witness for C7: the concrete run with explicit model type `llama`
yields `llama` in the descriptor, and the unknown model type `gpt2`
fails with `UnknownModelType`. -/
theorem model_type_hint_resolution_case :
    jobW.model_type = argsW.model_type ∧
    (runMain envW argsBadModel).2 = Except.error CompileError.UnknownModelType :=
  ⟨model_type_hint_resolution.1 envW argsW jobW (by decide) (by decide),
   model_type_hint_resolution.2 envW argsBadModel "model-dir".data 7 (by decide)
     (by decide) (by decide) (by decide)⟩

/-- C9: the maximum-sequence-length override is passed through to the
job descriptor exactly as parsed — any integer, including zero and
negative values, and `none` when the option is omitted. -/
theorem max_sequence_length_passthrough (env : Env) (args : Args) (job : Job)
    (h : (runMain env args).2 = Except.ok job) :
    job.max_sequence_length = args.max_sequence_length := by
  obtain ⟨cfg, scheme, tgt, bf, mt, optFlags, out,
    hc, hq, hm, hh, ho, hout, ht, hmt, hjob⟩ := runMain_ok_inv env args job h
  subst hjob
  rfl

/-- Witness for C9: the concrete run passes the negative override `-5`
through unchanged. -/
theorem max_sequence_length_passthrough_case :
    jobW.max_sequence_length = argsW.max_sequence_length :=
  max_sequence_length_passthrough envW argsW jobW (by decide)

/-- C8: for a directory, the config locator fails with `ConfigNotFound`
naming the path whenever the non-recursive search finds zero or several
recognised config files, succeeds only when the search finds exactly the
returned file, and a locator failure aborts the run at the first
stage. -/
theorem locate_config_directory :
    (∀ fs p, fs.isFile p = false → fs.isDirF p = true →
      ((fs.listDir p).filter isConfigName).length ≠ 1 →
      locateConfig fs p = Except.error (CompileError.ConfigNotFound p)) ∧
    (∀ fs p c, fs.isFile p = false → fs.isDirF p = true →
      locateConfig fs p = Except.ok c → (fs.listDir p).filter isConfigName = [c]) ∧
    (∀ env args e, env.detectConfig args.config = Except.error e →
      (runMain env args).2 = Except.error e ∧ (runMain env args).1 = [Stage.locator]) := by
  refine ⟨?_, ?_, ?_⟩
  · intro fs p hf hd hlen
    unfold locateConfig
    simp only [hf, hd]
    cases hl : (fs.listDir p).filter isConfigName with
    | nil => simp [hl]
    | cons c t =>
      cases t with
      | nil => exact absurd (by rw [hl]; rfl) hlen
      | cons d t2 => simp [hl]
  · intro fs p c hf hd h
    unfold locateConfig at h
    simp only [hf, hd] at h
    revert h
    cases (fs.listDir p).filter isConfigName with
    | nil => intro h; simp at h
    | cons c0 t =>
      cases t with
      | nil =>
        intro h
        simp at h
        simp [h]
      | cons d t2 => intro h; simp at h
  · intro env args e hc
    unfold runMain
    refine ⟨?_, ?_⟩ <;> simp [hc]

/-- Witness for C8: a directory with two recognised config files makes
the locator fail with `ConfigNotFound` naming the directory. -/
theorem locate_config_directory_case :
    locateConfig fsW "model-dir".data =
      Except.error (CompileError.ConfigNotFound "model-dir".data) :=
  locate_config_directory.1 fsW "model-dir".data rfl rfl (by decide)

end MlcCompile
